import Mathlib

/-!
Shallow embedding of the order-commit / outbox / inventory-feedback core of the
`orders-api-python` service (repository `bernardo1mw/EDA`).

The persistent state (PostgreSQL tables `orders`, `outbox_events`, `products`) is
modelled as lists of rows; each repository method from
`app/infrastructure/database/repositories.py` becomes a pure function from a
database state (plus the method's arguments) to the new database state and the
method's return value.  SQL `UPDATE ... WHERE c` is modelled as a map over the
row list that rewrites exactly the rows satisfying `c`; the row count reported
by `conn.execute` is modelled with `countP`.  `NOW()` is modelled by an explicit
`now : Nat` argument.  Python `float` amounts are modelled as `Int` (no claim
below depends on fractional arithmetic), and UUID values as `Nat` (opaque
identities; a Python `uuid.UUID` object is always truthy).
-/

namespace EDA

abbrev UUID := Nat

/-- Model of `str(uuid)` — the canonical string form of a UUID value (opaque here). -/
def uuidStr (u : UUID) : String := toString u

/-- The `OrderStatus` enum from `app/domain/models/order.py`. -/
inductive OrderStatus where
  | PENDING
  | PROCESSING
  | COMPLETED
  | FAILED
  | CANCELLED
deriving DecidableEq, Repr

/-- A row of the `orders` table. -/
structure OrderRow where
  id : UUID
  customer_id : UUID
  product_id : UUID
  quantity : Int
  total_amount : Int
  status : OrderStatus
  created_at : Nat
  updated_at : Nat
deriving DecidableEq, Repr

/-- A row of the `outbox_events` table (`event_data` is the serialized JSON text
    stored in the table's text column). -/
structure OutboxRow where
  id : UUID
  aggregate_id : UUID
  aggregate_type : String
  event_type : String
  event_data : String
  created_at : Nat
  processed_at : Option Nat
  status : String
  retry_count : Int
  max_retries : Int
deriving DecidableEq, Repr

/-- A row of the `products` table (only the columns the verified core touches). -/
structure ProductRow where
  id : UUID
  stock_quantity : Int
  updated_at : Nat
deriving DecidableEq, Repr

/-- The database state: the three tables of the verified core. -/
structure DB where
  orders : List OrderRow
  outbox_events : List OutboxRow
  products : List ProductRow
deriving DecidableEq, Repr

/-- Row predicate of the stock-reservation UPDATE:
    `WHERE id = $1 AND stock_quantity >= $2`. -/
def matchesReserve (product_id : UUID) (quantity : Int) (p : ProductRow) : Bool :=
  p.id == product_id && decide (quantity ≤ p.stock_quantity)

namespace ProductRepository

/-- Embedding of `ProductRepository.reserve_stock` (repositories.py:593-612):
    `UPDATE products SET stock_quantity = stock_quantity - $2, updated_at = NOW()
     WHERE id = $1 AND stock_quantity >= $2 RETURNING stock_quantity`;
    returns `False` iff no row matched (insufficient stock), else `True`. -/
def reserve_stock (db : DB) (product_id : UUID) (quantity : Int) (now : Nat) :
    DB × Bool :=
  let matched := db.products.any (matchesReserve product_id quantity)
  let products := db.products.map (fun p =>
    if matchesReserve product_id quantity p then
      { p with stock_quantity := p.stock_quantity - quantity, updated_at := now }
    else p)
  ({ db with products := products }, matched)

/-- Embedding of `ProductRepository.update_stock` (repositories.py:573-591):
    `UPDATE products SET stock_quantity = stock_quantity + $2, updated_at = NOW()
     WHERE id = $1 RETURNING stock_quantity`; the Python then returns `False`
    when a row was returned and its (already committed) new stock is negative,
    and `True` otherwise — the UPDATE itself is unconditional. -/
def update_stock (db : DB) (product_id : UUID) (quantity : Int) (now : Nat) :
    DB × Bool :=
  let products := db.products.map (fun p =>
    if p.id == product_id then
      { p with stock_quantity := p.stock_quantity + quantity, updated_at := now }
    else p)
  let ret := match db.products.find? (fun p => p.id == product_id) with
    | none => true
    | some p => !(decide (p.stock_quantity + quantity < 0))
  ({ db with products := products }, ret)

end ProductRepository

/-- First product row with the given id (`SELECT ... WHERE id = $1` on the
    primary key), projected to its stock column. -/
def stockOf (db : DB) (product_id : UUID) : Option Int :=
  (db.products.find? (fun p => p.id == product_id)).map (fun p => p.stock_quantity)

namespace OrderRepository

/-- Embedding of `OrderRepository.update_status` (repositories.py:109-124):
    `UPDATE orders SET status = $2, updated_at = NOW() WHERE id = $1`;
    the Python returns `result == "UPDATE 1"`, i.e. whether exactly one row
    matched.  There is no guard on the current status. -/
def update_status (db : DB) (order_id : UUID) (new_status : OrderStatus) (now : Nat) :
    DB × Bool :=
  let n := db.orders.countP (fun o => o.id == order_id)
  let orders := db.orders.map (fun o =>
    if o.id == order_id then { o with status := new_status, updated_at := now } else o)
  ({ db with orders := orders }, n == 1)

end OrderRepository

namespace OutboxEventRepository

/-- Embedding of `OutboxEventRepository.increment_retry` (repositories.py:406-422):
    `UPDATE outbox_events SET retry_count = retry_count + 1,
       status = CASE WHEN retry_count >= max_retries THEN FAILED ELSE PENDING END
     WHERE id = $1`.
    In SQL every expression on the right of `SET` reads the OLD row, so the
    `CASE` compares the PRE-increment `retry_count` against `max_retries`. -/
def increment_retry (db : DB) (event_id : UUID) : DB × Bool :=
  let n := db.outbox_events.countP (fun e => e.id == event_id)
  let evs := db.outbox_events.map (fun e =>
    if e.id == event_id then
      { e with retry_count := e.retry_count + 1,
               status := if e.max_retries ≤ e.retry_count then "FAILED" else "PENDING" }
    else e)
  ({ db with outbox_events := evs }, n == 1)

end OutboxEventRepository

/-- Domain-model method `OutboxEvent.increment_retry` (order.py:155-159):
    `self.retry_count += 1; if self.retry_count >= self.max_retries: status = FAILED`
    — here the comparison uses the POST-increment count. -/
def OutboxEvent.increment_retry (e : OutboxRow) : OutboxRow :=
  let rc := e.retry_count + 1
  if e.max_retries ≤ rc then { e with retry_count := rc, status := "FAILED" }
  else { e with retry_count := rc }

/-- Comparison used by `ORDER BY created_at ASC`. -/
def createdLe (a b : OutboxRow) : Prop := a.created_at ≤ b.created_at

instance : DecidableRel createdLe := fun a b => by
  unfold createdLe; infer_instance

instance : IsTotal OutboxRow createdLe :=
  ⟨fun a b => Nat.le_total a.created_at b.created_at⟩

instance : IsTrans OutboxRow createdLe :=
  ⟨fun _ _ _ h h' => Nat.le_trans h h'⟩

namespace OutboxEventRepository

/-- Embedding of `OutboxEventRepository.get_pending_events` (repositories.py:343-361):
    `SELECT ... FROM outbox_events WHERE status = 'PENDING'
     ORDER BY created_at ASC LIMIT $1`. -/
def get_pending_events (db : DB) (limit : Nat) : List OutboxRow :=
  (List.insertionSort createdLe
    (db.outbox_events.filter (fun e => e.status == "PENDING"))).take limit

end OutboxEventRepository

/-! ## JSON values

Values produced by `json.loads` / consumed by `json.dumps` are modelled with a
small inductive type (numbers as `Int`; no claim below depends on fractional
number formatting or on string escaping). -/

inductive JValue where
  | null
  | bool (b : Bool)
  | num (n : Int)
  | str (s : String)
  | arr (xs : List JValue)
  | obj (kvs : List (String × JValue))

mutual

/-- Model of `json.dumps` with its default separators (string escaping elided; no claim
    inspects payload text beyond its construction from the event data). -/
def jsonSerialize : JValue → String
  | .null => "null"
  | .bool true => "true"
  | .bool false => "false"
  | .num n => toString n
  | .str s => "\"" ++ s ++ "\""
  | .arr xs => "[" ++ String.intercalate ", " (jsonSerializeArr xs) ++ "]"
  | .obj kvs => String.mk [Char.ofNat 123] ++
      String.intercalate ", " (jsonSerializeObjFields kvs) ++
      String.mk [Char.ofNat 125]

/-- Serialized elements of a JSON array. -/
def jsonSerializeArr : List JValue → List String
  | [] => []
  | x :: xs => jsonSerialize x :: jsonSerializeArr xs

/-- Serialized `"key": value` fields of a JSON object. -/
def jsonSerializeObjFields : List (String × JValue) → List String
  | [] => []
  | (k, v) :: kvs => ("\"" ++ k ++ "\": " ++ jsonSerialize v) :: jsonSerializeObjFields kvs

end

/-- Model of `dict.get k` on a decoded JSON object (decoded objects have unique keys). -/
def jget (kvs : List (String × JValue)) (k : String) : Option JValue :=
  (kvs.find? (fun kv => kv.fst == k)).map (fun kv => kv.snd)

/-- Python truthiness of a JSON-decoded value. -/
def truthy : JValue → Bool
  | .null => false
  | .bool b => b
  | .num n => !(n == 0)
  | .str s => !(s == "")
  | .arr xs => !xs.isEmpty
  | .obj kvs => !kvs.isEmpty

/-- An `Optional[str]` field rendered into a JSON payload. -/
def optStr : Option String → JValue
  | none => JValue.null
  | some s => JValue.str s

/-! ## Order-commit transaction and use case -/

/-- Error raised inside the commit transaction; the surrounding
    `async with conn.transaction()` rolls the whole transaction back. -/
inductive CreateError where
  | insufficientStock
  | integrityViolation
deriving DecidableEq, Repr

/-- The statements executed inside the commit transaction, in execution order. -/
inductive Step where
  | reserveStockStep
  | insertOrderStep
  | insertOutboxStep
deriving DecidableEq, Repr

namespace OrderRepository

/-- Body of `create_with_outbox_event` after the optional stock reservation
    (repositories.py:237-266): INSERT the order row, then INSERT the outbox row,
    both in the same transaction; a duplicate primary key raises an integrity
    violation, rolling back to the pre-transaction state `db0`. -/
def insertOrderAndOutbox (db0 db1 : DB) (order : OrderRow) (event : OutboxRow)
    (tr : List Step) : DB × Except CreateError OrderRow × List Step :=
  if db1.orders.any (fun o => o.id == order.id) then
    (db0, Except.error CreateError.integrityViolation, tr ++ [Step.insertOrderStep])
  else
    let db2 := { db1 with orders := db1.orders ++ [order] }
    if db2.outbox_events.any (fun e => e.id == event.id) then
      (db0, Except.error CreateError.integrityViolation,
        tr ++ [Step.insertOrderStep, Step.insertOutboxStep])
    else
      ({ db2 with outbox_events := db2.outbox_events ++ [event] }, Except.ok order,
        tr ++ [Step.insertOrderStep, Step.insertOutboxStep])

/-- Embedding of `OrderRepository.create_with_outbox_event` (repositories.py:179-277).
    Inside one transaction: (1) if `product_id and quantity is not None`
    (a `uuid.UUID` value is always truthy), run the conditional stock-reservation
    UPDATE (the same SQL as `ProductRepository.reserve_stock`) and raise
    `InsufficientStockError` when no row matched; (2) INSERT the order row;
    (3) INSERT the outbox event row.  Any raise rolls the transaction back, so
    on error the observable state is the input `db`.  The third component
    records which SQL statements were executed, in order. -/
def create_with_outbox_event (db : DB) (order : OrderRow) (event : OutboxRow)
    (product_id : Option UUID) (quantity : Option Int) (now : Nat) :
    DB × Except CreateError OrderRow × List Step :=
  match product_id, quantity with
  | some pid, some q =>
    let r := ProductRepository.reserve_stock db pid q now
    if r.2 then insertOrderAndOutbox db r.1 order event [Step.reserveStockStep]
    else (db, Except.error CreateError.insufficientStock, [Step.reserveStockStep])
  | some _, none => insertOrderAndOutbox db db order event []
  | none, _ => insertOrderAndOutbox db db order event []

end OrderRepository

/-- Embedding of `Order.create_new` (order.py:70-89): fresh id, status PENDING,
    `created_at = updated_at = now`. -/
def Order.create_new (customer_id product_id : UUID) (quantity total_amount : Int)
    (oid : UUID) (now : Nat) : OrderRow :=
  { id := oid, customer_id := customer_id, product_id := product_id,
    quantity := quantity, total_amount := total_amount,
    status := OrderStatus.PENDING, created_at := now, updated_at := now }

/-- The `order.created` event payload (order.py:130-139). -/
def orderCreatedPayload (o : OrderRow) (trace_id span_id : Option String) :
    List (String × JValue) :=
  [("order_id", JValue.str (uuidStr o.id)),
   ("customer_id", JValue.str (uuidStr o.customer_id)),
   ("product_id", JValue.str (uuidStr o.product_id)),
   ("quantity", JValue.num o.quantity),
   ("total_amount", JValue.num o.total_amount),
   ("created_at", JValue.num (Int.ofNat o.created_at)),
   ("trace_id", optStr trace_id),
   ("span_id", optStr span_id)]

/-- Embedding of `OutboxEvent.create_order_created_event` (order.py:122-148):
    `aggregate_id = order.id`, `aggregate_type = "Order"`,
    `event_type = "order.created"`, status PENDING, `retry_count = 0`,
    `max_retries = 3`.  The repository serializes `event_data` to its text
    column before opening the transaction (repositories.py:210-213); since that
    serialization is deterministic it is applied here. -/
def OutboxEvent.create_order_created_event (o : OrderRow) (eid : UUID)
    (trace_id span_id : Option String) (now : Nat) : OutboxRow :=
  { id := eid, aggregate_id := o.id, aggregate_type := "Order",
    event_type := "order.created",
    event_data := jsonSerialize (JValue.obj (orderCreatedPayload o trace_id span_id)),
    created_at := now, processed_at := none, status := "PENDING",
    retry_count := 0, max_retries := 3 }

/-- API request for creating an order (amounts as `Int`; the 2-decimal-places
    check of the Python `float` amount is not modelled). -/
structure OrderCreateRequest where
  customer_id : UUID
  product_id : UUID
  quantity : Int
  total_amount : Int
deriving DecidableEq, Repr

/-- Errors surfaced by `CreateOrderUseCase.execute`; in Python both
    `invalidOrderData` and `productNotFound` raise `InvalidOrderDataError`. -/
inductive UseCaseError where
  | invalidOrderData
  | productNotFound
  | createFailed (e : CreateError)
deriving DecidableEq, Repr

namespace CreateOrderUseCase

/-- Embedding of `CreateOrderUseCase.execute` (order_use_cases.py:24-116):
    validate (`_validate_order_data`, lines 118-140; the UUID presence checks
    never fire since UUID values are truthy), check the product exists, build
    the Order (status PENDING) and its `order.created` OutboxEvent, then call
    `create_with_outbox_event(order, event, product_id=request.product_id,
    quantity=request.quantity)`. -/
def execute (db : DB) (req : OrderCreateRequest) (oid eid : UUID)
    (trace_id span_id : Option String) (now : Nat) :
    DB × Except UseCaseError OrderRow × List Step :=
  if decide (req.quantity ≤ 0) || decide (1000 < req.quantity) ||
     decide (req.total_amount ≤ 0) || decide (100000 < req.total_amount) then
    (db, Except.error UseCaseError.invalidOrderData, [])
  else
    match db.products.find? (fun p => p.id == req.product_id) with
    | none => (db, Except.error UseCaseError.productNotFound, [])
    | some _ =>
      let order := Order.create_new req.customer_id req.product_id
        req.quantity req.total_amount oid now
      let event := OutboxEvent.create_order_created_event order eid trace_id span_id now
      match OrderRepository.create_with_outbox_event db order event
        (some req.product_id) (some req.quantity) now with
      | (db2, Except.ok o, tr) => (db2, Except.ok o, tr)
      | (db2, Except.error e, tr) => (db2, Except.error (UseCaseError.createFailed e), tr)

end CreateOrderUseCase

/-! ## Inventory feedback consumer

`InventoryEventConsumer.process_reserved_message`
(app/infrastructure/messaging/inventory_consumer.py:72-119) runs inside
`async with message.process()`: normal completion acknowledges the message,
an escaping exception does not (the code re-raises with the comment
"Re-raise to trigger nack").  The repository call is abstracted by a behavior
function so that both a returned bool and a raised infrastructure error can be
modelled; the second component of the result lists the
`update_status(order_uuid, status)` calls actually made. -/

/-- Exceptions distinguished by the handler's `except` clauses. -/
inductive PyErr where
  | valueError
  | attributeError
deriving DecidableEq, Repr

/-- Behavior of the abstracted `order_repository.update_status` call:
    either it returns a bool, or it raises a (non-ValueError) infrastructure
    exception. -/
inductive UpdateBehavior where
  | returns (b : Bool)
  | raisesInfra
deriving DecidableEq, Repr

/-- Disposition of the delivery decided by `async with message.process()`
    (aio_pika `ProcessContext` with its default arguments, as used at
    inventory_consumer.py:74): on normal exit of the block the message is
    acknowledged; on an escaping exception the context manager calls
    `message.reject(requeue=False)` — the message is removed from the queue
    WITHOUT acknowledgement and without requeue. -/
inductive ConsumerOutcome where
  | acked
  | rejectedNoRequeue
deriving DecidableEq, Repr

/-- Whether the broker redelivers the message after the handler finishes.
    An ack removes the message; a reject with `requeue=False` (the
    `message.process()` default, and no dead-letter exchange is declared in
    this repository) discards it permanently — so no handler outcome leads to
    redelivery. -/
def ConsumerOutcome.redelivered : ConsumerOutcome → Bool
  | ConsumerOutcome.acked => false
  | ConsumerOutcome.rejectedNoRequeue => false

/-- Hex digit test used by UUID-string validation. -/
def isHexChar (c : Char) : Bool :=
  c.isDigit || ('a' ≤ c && c ≤ 'f') || ('A' ≤ c && c ≤ 'F')

def isBraceChar (c : Char) : Bool :=
  c == Char.ofNat 123 || c == Char.ofNat 125

/-- Python `str.strip` with both brace characters. -/
def stripBraceChars (cs : List Char) : List Char :=
  ((cs.dropWhile isBraceChar).reverse.dropWhile isBraceChar).reverse

/-- The standard library `uuid.UUID(hex=s)` constructor, reduced to validation
    and normalization: strip surrounding braces, remove hyphens, and require 32
    hexadecimal digits (returned lowercased as the UUID's canonical identity);
    `none` models the `ValueError` it raises.  The constructor's additional
    acceptance of `urn:uuid:`-prefixed forms is not modelled (no claim
    exercises it). -/
def pyUUIDhex (s : String) : Option String :=
  let cs := (stripBraceChars s.data).filter (fun c => c != '-')
  if cs.length == 32 && cs.all isHexChar then
    some (String.mk (cs.map Char.toLower))
  else none

/-- Model of `UUID(order_id)` on a JSON-decoded value: a string either validates or
    raises `ValueError`; any non-string raises `AttributeError` inside the
    constructor (`hex.replace` on a non-string), which the handler's `except
    ValueError` does NOT catch. -/
def pyUUID : JValue → Except PyErr String
  | .str s =>
    match pyUUIDhex s with
    | some u => Except.ok u
    | none => Except.error PyErr.valueError
  | _ => Except.error PyErr.attributeError

/-- Python `event_data.get("status") != "reserved"`, negated: the status field
    equals the string "reserved". -/
def statusIsReserved : Option JValue → Bool
  | some (JValue.str s) => s == "reserved"
  | _ => false

/-- Model of `event_data.get("orderId") or event_data.get("order_id")`: Python `or`
    falls through to the second lookup when the first value is falsy. -/
def effectiveOrderId (kvs : List (String × JValue)) : Option JValue :=
  match jget kvs "orderId" with
  | some v => if truthy v then some v else jget kvs "order_id"
  | none => jget kvs "order_id"

namespace InventoryEventConsumer

/-- Embedding of `InventoryEventConsumer.process_reserved_message`
    (inventory_consumer.py:72-119).  `body` is the result of
    `json.loads(message.body.decode())` (`Except.error` = `JSONDecodeError`,
    caught and acked).  `upd` gives the behavior of
    `order_repository.update_status` for the parsed order UUID (the status
    passed is always `OrderStatus.COMPLETED` on this feed).  The handler body
    runs inside `async with message.process()`: paths on which the body
    returns normally (including the caught `JSONDecodeError` / `ValueError`
    branches) yield `ConsumerOutcome.acked`; paths on which an exception
    escapes — the generic `except` re-raises with the comment "Re-raise to
    trigger nack" — yield `ConsumerOutcome.rejectedNoRequeue`, since
    `message.process()` with its default `requeue=False` rejects the message
    without requeue.  Returns that disposition and the list of
    `update_status` calls made. -/
def process_reserved_message (body : Except Unit JValue)
    (upd : String → UpdateBehavior) :
    ConsumerOutcome × List (String × OrderStatus) :=
  match body with
  | Except.error _ => (ConsumerOutcome.acked, [])
  | Except.ok (JValue.obj kvs) =>
    match effectiveOrderId kvs with
    | none => (ConsumerOutcome.acked, [])
    | some ov =>
      if !(truthy ov) then (ConsumerOutcome.acked, [])
      else if !(statusIsReserved (jget kvs "status")) then (ConsumerOutcome.acked, [])
      else
        match pyUUID ov with
        | Except.error PyErr.valueError => (ConsumerOutcome.acked, [])
        | Except.error PyErr.attributeError => (ConsumerOutcome.rejectedNoRequeue, [])
        | Except.ok u =>
          match upd u with
          | UpdateBehavior.returns _ => (ConsumerOutcome.acked, [(u, OrderStatus.COMPLETED)])
          | UpdateBehavior.raisesInfra => (ConsumerOutcome.rejectedNoRequeue, [(u, OrderStatus.COMPLETED)])
  | Except.ok _ => (ConsumerOutcome.rejectedNoRequeue, [])

end InventoryEventConsumer

/-! ## Event publisher -/

/-- The domain `OutboxEvent` as handed to the publisher (structured payload,
    before serialization). -/
structure OutboxEventMsg where
  id : UUID
  aggregate_id : UUID
  aggregate_type : String
  event_type : String
  event_data : List (String × JValue)

/-- An AMQP message as handed to `exchange.publish`. -/
structure BrokerMessage where
  body : String
  delivery_mode : Nat
  message_id : String
  headers : List (String × String)
  exchange : String
  routing_key : String
deriving DecidableEq, Repr

/-- The default (nameless direct) exchange, `channel.default_exchange`. -/
def defaultExchangeName : String := ""

/-- The durable topic exchange declared by
    `RabbitMQEventPublisher.connect` (publisher.py:29-33) and bound by the
    inventory consumer (inventory_consumer.py:33-53). -/
def declaredTopicExchange : String := "amq.topic"

namespace RabbitMQEventPublisher

/-- The `routing_keys` table of `_get_routing_key` (publisher.py:159-170). -/
def routing_keys : List (String × String) :=
  [("order.created", "order.created"),
   ("payment.authorized", "payment.authorized"),
   ("payment.declined", "payment.declined"),
   ("inventory.reserved", "inventory.reserved"),
   ("inventory.rejected", "inventory.rejected"),
   ("notification.sent", "notification.sent")]

/-- Embedding of `_get_routing_key`: `routing_keys.get(event_type, event_type)`. -/
def get_routing_key (event_type : String) : String :=
  match routing_keys.find? (fun kv => kv.fst == event_type) with
  | some kv => kv.snd
  | none => event_type

/-- Embedding of `RabbitMQEventPublisher.publish_event` (publisher.py:47-92): builds a
    message with `json.dumps(event.event_data)` body, PERSISTENT delivery mode
    (wire value 2), `message_id = str(event.id)` and the three headers, then
    publishes it via `self.channel.default_exchange` with the routing key from
    `_get_routing_key`.  `deliveryOk` models whether the broker interaction
    raises; on a raise the `except` returns `False` (never throws).
    Connection management (`connect` on a closed channel) is not modelled. -/
def publish_event (ev : OutboxEventMsg) (deliveryOk : Bool) :
    Bool × Option BrokerMessage :=
  let message : BrokerMessage :=
    { body := jsonSerialize (JValue.obj ev.event_data),
      delivery_mode := 2,
      message_id := uuidStr ev.id,
      headers := [("event_type", ev.event_type),
                  ("aggregate_id", uuidStr ev.aggregate_id),
                  ("aggregate_type", ev.aggregate_type)],
      exchange := defaultExchangeName,
      routing_key := get_routing_key ev.event_type }
  if deliveryOk then (true, some message) else (false, none)

end RabbitMQEventPublisher

/-! ## Helper lemmas -/

theorem map_eq_self_of_fixed {α : Type} (f : α → α) :
    ∀ l : List α, (∀ a ∈ l, f a = a) → l.map f = l := by
  intro l
  induction l with
  | nil => intro _; rfl
  | cons a t ih =>
    intro h
    simp only [List.map_cons]
    rw [h a (List.mem_cons_self a t), ih (fun b hb => h b (List.mem_cons_of_mem a hb))]

theorem find?_map_of_pred_invariant {α : Type} (f : α → α) (pr : α → Bool)
    (h : ∀ a, pr (f a) = pr a) :
    ∀ l : List α, (l.map f).find? pr = (l.find? pr).map f := by
  intro l
  induction l with
  | nil => rfl
  | cons a t ih =>
    cases hp : pr a with
    | true =>
      rw [List.map_cons, List.find?_cons_of_pos _ (by rw [h]; exact hp),
        List.find?_cons_of_pos _ hp, Option.map_some']
    | false =>
      rw [List.map_cons, List.find?_cons_of_neg _ (by rw [h, hp]; exact Bool.false_ne_true),
        List.find?_cons_of_neg _ (by rw [hp]; exact Bool.false_ne_true), ih]

/-- The row rewrite performed by the reservation UPDATE. -/
def reserveRewrite (pid : UUID) (q : Int) (now : Nat) (p : ProductRow) : ProductRow :=
  if matchesReserve pid q p then
    { p with stock_quantity := p.stock_quantity - q, updated_at := now }
  else p

theorem reserve_stock_products (db : DB) (pid : UUID) (q : Int) (now : Nat) :
    (ProductRepository.reserve_stock db pid q now).1.products
      = db.products.map (reserveRewrite pid q now) := rfl

theorem reserve_stock_orders (db : DB) (pid : UUID) (q : Int) (now : Nat) :
    (ProductRepository.reserve_stock db pid q now).1.orders = db.orders := rfl

theorem reserve_stock_outbox (db : DB) (pid : UUID) (q : Int) (now : Nat) :
    (ProductRepository.reserve_stock db pid q now).1.outbox_events
      = db.outbox_events := rfl

theorem reserve_stock_ret (db : DB) (pid : UUID) (q : Int) (now : Nat) :
    (ProductRepository.reserve_stock db pid q now).2
      = db.products.any (matchesReserve pid q) := rfl

theorem reserveRewrite_id (pid : UUID) (q : Int) (now : Nat) (p : ProductRow) :
    (reserveRewrite pid q now p).id = p.id := by
  unfold reserveRewrite
  by_cases hm : matchesReserve pid q p <;> simp [hm]

/-- The stock-reservation UPDATE rewrites no row's `id`, so the row found by
    `WHERE id = $1` after the update is the rewrite of the row found before. -/
theorem stockOf_reserve_stock (db : DB) (pid : UUID) (q : Int) (now : Nat) (s : Int)
    (hs : stockOf db pid = some s) :
    stockOf (ProductRepository.reserve_stock db pid q now).1 pid
      = some (if q ≤ s then s - q else s) := by
  obtain ⟨p0, hp0, hps⟩ := Option.map_eq_some'.mp hs
  have hid := List.find?_some hp0
  unfold stockOf
  rw [reserve_stock_products,
    find?_map_of_pred_invariant (reserveRewrite pid q now) _
      (fun a => by rw [reserveRewrite_id]) db.products,
    hp0, Option.map_some', Option.map_some']
  unfold reserveRewrite matchesReserve
  rw [hid, Bool.true_and]
  by_cases hq : q ≤ s
  · simp [hq, hps]
  · simp [hq, hps]

/-- With unique product ids, the reservation UPDATE matches a row iff the row
    returned by `WHERE id = $1` has sufficient stock. -/
theorem any_matchesReserve_of_nodup (ps : List ProductRow) (pid : UUID) (q : Int)
    (p0 : ProductRow) (hN : (ps.map ProductRow.id).Nodup)
    (hf : ps.find? (fun p => p.id == pid) = some p0) :
    ps.any (matchesReserve pid q) = decide (q ≤ p0.stock_quantity) := by
  induction ps with
  | nil => simp at hf
  | cons a t ih =>
    cases hpa : (a.id == pid) with
    | true =>
      rw [@List.find?_cons_of_pos _ (fun p => p.id == pid) a t hpa, Option.some_inj] at hf
      subst hf
      have hnotin : a.id ∉ t.map ProductRow.id := by
        simp only [List.map_cons, List.nodup_cons] at hN
        exact hN.1
      have hta : ∀ p' ∈ t, (p'.id == pid) = false := by
        intro p' hp'
        have hne : p'.id ≠ a.id := fun hcontra =>
          hnotin (hcontra ▸ List.mem_map_of_mem ProductRow.id hp')
        have hane : p'.id ≠ pid := by
          rw [← eq_of_beq hpa]; exact hne
        exact beq_eq_false_iff_ne.mpr hane
      have htany : t.any (matchesReserve pid q) = false := by
        rw [List.any_eq_false]
        intro p' hp'
        unfold matchesReserve
        rw [hta p' hp', Bool.false_and]
        exact Bool.false_ne_true
      rw [List.any_cons, htany, Bool.or_false]
      unfold matchesReserve
      rw [hpa, Bool.true_and]
    | false =>
      rw [@List.find?_cons_of_neg _ (fun p => p.id == pid) a t
        (by simp only [hpa]; exact Bool.false_ne_true)] at hf
      have hN' : (t.map ProductRow.id).Nodup := by
        simp only [List.map_cons, List.nodup_cons] at hN
        exact hN.2
      rw [List.any_cons, ih hN' hf]
      unfold matchesReserve
      rw [hpa, Bool.false_and, Bool.false_or]

/-- With unique product ids and insufficient stock on the addressed row, the
    reservation UPDATE matches nothing and leaves the table unchanged. -/
theorem reserve_stock_noop_of_insufficient (db : DB) (pid : UUID) (q : Int) (now : Nat)
    (s : Int) (hN : (db.products.map ProductRow.id).Nodup)
    (hs : stockOf db pid = some s) (hlt : s < q) :
    (ProductRepository.reserve_stock db pid q now).1 = db := by
  obtain ⟨p0, hp0, hps⟩ := Option.map_eq_some'.mp hs
  have hmem : p0 ∈ db.products := List.mem_of_find?_eq_some hp0
  have hid := List.find?_some hp0
  have hfix : db.products.map (reserveRewrite pid q now) = db.products := by
    apply map_eq_self_of_fixed
    intro p hp
    have hfalse : matchesReserve pid q p = false := by
      unfold matchesReserve
      cases hpq : (p.id == pid) with
      | false => rw [Bool.false_and]
      | true =>
        have hpp0 : p = p0 :=
          List.inj_on_of_nodup_map hN hp hmem
            (by rw [eq_of_beq hpq, eq_of_beq hid])
        subst hpp0
        rw [Bool.true_and, decide_eq_false]
        omega
    unfold reserveRewrite
    rw [hfalse]
    rfl
  have : (ProductRepository.reserve_stock db pid q now).1
      = { db with products := db.products.map (reserveRewrite pid q now) } := rfl
  rw [this, hfix]

/-! ## Claims -/

/-- C2: confirmed. `ProductRepository.reserve_stock` decrements the addressed
    product's available quantity by `quantity` and returns `true` iff the
    current available quantity is at least `quantity`; otherwise it returns
    `false` and the state (in particular the available quantity) is unchanged.
    The check and the decrement are one conditional update on the row. -/
theorem reserve_stock_conditional_decrement (db : DB) (pid : UUID) (q : Int) (now : Nat)
    (s : Int) (hN : (db.products.map ProductRow.id).Nodup)
    (hs : stockOf db pid = some s) :
    ((ProductRepository.reserve_stock db pid q now).2 = true ↔ q ≤ s) ∧
    stockOf (ProductRepository.reserve_stock db pid q now).1 pid
      = some (if q ≤ s then s - q else s) ∧
    (s < q → (ProductRepository.reserve_stock db pid q now).1 = db) := by
  obtain ⟨p0, hp0, hps⟩ := Option.map_eq_some'.mp hs
  refine ⟨?_, stockOf_reserve_stock db pid q now s hs,
    fun hlt => reserve_stock_noop_of_insufficient db pid q now s hN hs hlt⟩
  unfold ProductRepository.reserve_stock
  simp only
  rw [any_matchesReserve_of_nodup db.products pid q p0 hN hp0, hps]
  exact decide_eq_true_iff

/-- Witness for C2 at a concrete state: one product with stock 5,
    reservation of 2 succeeds and leaves 3. -/
theorem reserve_stock_conditional_decrement_witness :
    (((ProductRepository.reserve_stock
        { orders := [], outbox_events := [],
          products := [{ id := 7, stock_quantity := 5, updated_at := 0 }] } 7 2 1).2 = true
      ↔ (2 : Int) ≤ 5) ∧
     stockOf (ProductRepository.reserve_stock
        { orders := [], outbox_events := [],
          products := [{ id := 7, stock_quantity := 5, updated_at := 0 }] } 7 2 1).1 7
       = some (if (2 : Int) ≤ 5 then 5 - 2 else 5) ∧
     ((5 : Int) < 2 → (ProductRepository.reserve_stock
        { orders := [], outbox_events := [],
          products := [{ id := 7, stock_quantity := 5, updated_at := 0 }] } 7 2 1).1
        = { orders := [], outbox_events := [],
            products := [{ id := 7, stock_quantity := 5, updated_at := 0 }] })) :=
  reserve_stock_conditional_decrement
    { orders := [], outbox_events := [],
      products := [{ id := 7, stock_quantity := 5, updated_at := 0 }] } 7 2 1 5
    (by decide) (by decide)

/-- An outbox event one retry short of its cap: `retry_count = 2`,
    `max_retries = 3`. -/
def retryEventAtCap : OutboxRow :=
  { id := 3, aggregate_id := 1, aggregate_type := "Order",
    event_type := "order.created", event_data := "", created_at := 0,
    processed_at := none, status := "PENDING", retry_count := 2, max_retries := 3 }

def retryDB : DB := { orders := [], outbox_events := [retryEventAtCap], products := [] }

/-- C3, code-bug evidence. The claim (and the domain model's own
    `OutboxEvent.increment_retry`) says the event becomes FAILED when the
    post-increment retry count reaches `max_retries`.  The repository's SQL
    compares the PRE-increment `retry_count` to `max_retries`, so on an event
    with `retry_count = 2`, `max_retries = 3` the SQL update leaves the status
    PENDING at a resulting count of 3, while the domain-model method on the
    same event yields FAILED at count 3. -/
theorem increment_retry_pre_vs_post_count :
    ((OutboxEventRepository.increment_retry retryDB 3).1.outbox_events.map
      (fun e => (e.retry_count, e.status)) = [((3 : Int), "PENDING")]) ∧
    (OutboxEvent.increment_retry retryEventAtCap).retry_count = 3 ∧
    (OutboxEvent.increment_retry retryEventAtCap).status = "FAILED" := by
  refine ⟨?_, ?_, ?_⟩ <;> rfl

/-- An order already in the terminal status COMPLETED. -/
def completedOrderRow : OrderRow :=
  { id := 1, customer_id := 2, product_id := 3, quantity := 1, total_amount := 10,
    status := OrderStatus.COMPLETED, created_at := 0, updated_at := 0 }

def completedOrderDB : DB :=
  { orders := [completedOrderRow], outbox_events := [], products := [] }

/-- C4 counterexample. The claim says an `update_status` call requesting a
    transition out of a non-PENDING status is rejected silently as a no-op.
    On an order whose status is COMPLETED, `update_status(id, FAILED)` in fact
    overwrites the status to FAILED and reports success — the SQL has no guard
    on the current status. -/
theorem update_status_not_noop_on_completed :
    ((OrderRepository.update_status completedOrderDB 1 OrderStatus.FAILED 9).1.orders.map
      OrderRow.status = [OrderStatus.FAILED]) ∧
    (OrderRepository.update_status completedOrderDB 1 OrderStatus.FAILED 9).2 = true :=
  ⟨rfl, rfl⟩

/-- The row rewrite performed by the status UPDATE. -/
def statusRewrite (oid : UUID) (st : OrderStatus) (now : Nat) (o : OrderRow) : OrderRow :=
  if o.id == oid then { o with status := st, updated_at := now } else o

theorem update_status_orders (db : DB) (oid : UUID) (st : OrderStatus) (now : Nat) :
    (OrderRepository.update_status db oid st now).1.orders
      = db.orders.map (statusRewrite oid st now) := rfl

theorem update_status_ret (db : DB) (oid : UUID) (st : OrderStatus) (now : Nat) :
    (OrderRepository.update_status db oid st now).2
      = (db.orders.countP (fun o => o.id == oid) == 1) := rfl

/-- C4, amended. `update_status` is an unconditional overwrite: every
    order row with the given id gets the requested status (even out of a
    terminal status — there is no state-machine guard and no crash), rows with
    other ids are untouched, and the returned bool reports whether exactly one
    row matched. -/
theorem update_status_unconditional_overwrite (db : DB) (oid : UUID)
    (st : OrderStatus) (now : Nat) :
    (∀ o ∈ db.orders, (o.id == oid) = false →
      o ∈ (OrderRepository.update_status db oid st now).1.orders) ∧
    (∀ o ∈ (OrderRepository.update_status db oid st now).1.orders,
      (o.id == oid) = true → o.status = st) ∧
    ((OrderRepository.update_status db oid st now).2 = true ↔
      db.orders.countP (fun o => o.id == oid) = 1) := by
  refine ⟨?_, ?_, ?_⟩
  · intro o ho hne
    rw [update_status_orders]
    refine List.mem_map.mpr ⟨o, ho, ?_⟩
    unfold statusRewrite
    rw [hne]
    rfl
  · intro o ho hid
    rw [update_status_orders] at ho
    obtain ⟨a, _, rfl⟩ := List.mem_map.mp ho
    unfold statusRewrite at hid ⊢
    by_cases ha : (a.id == oid) = true
    · simp [ha]
    · simp [ha] at hid
  · rw [update_status_ret]
    exact beq_iff_eq

/-- Witness for the amended C4 at the COMPLETED order above. -/
theorem update_status_unconditional_overwrite_witness :
    (∀ o ∈ completedOrderDB.orders, (o.id == 1) = false →
      o ∈ (OrderRepository.update_status completedOrderDB 1 OrderStatus.FAILED 9).1.orders) ∧
    (∀ o ∈ (OrderRepository.update_status completedOrderDB 1 OrderStatus.FAILED 9).1.orders,
      (o.id == 1) = true → o.status = OrderStatus.FAILED) ∧
    ((OrderRepository.update_status completedOrderDB 1 OrderStatus.FAILED 9).2 = true ↔
      completedOrderDB.orders.countP (fun o => o.id == 1) = 1) :=
  update_status_unconditional_overwrite completedOrderDB 1 OrderStatus.FAILED 9

/-- A product with 3 units in stock. -/
def smallStockDB : DB :=
  { orders := [], outbox_events := [],
    products := [{ id := 1, stock_quantity := 3, updated_at := 0 }] }

/-- C5, code-bug evidence. The claim says the available quantity is never
    observably negative after any stock-mutating operation.  `update_stock`
    with a negative delta larger than the stock (here `-5` against stock 3)
    commits `-2` to the row — the UPDATE is unconditional and is not rolled
    back — and merely returns `False`, so every subsequent reader observes a
    negative quantity. -/
theorem update_stock_commits_negative_stock :
    stockOf (ProductRepository.update_stock smallStockDB 1 (-5) 7).1 1 = some (-2) ∧
    ((-2 : Int) < 0) ∧
    (ProductRepository.update_stock smallStockDB 1 (-5) 7).2 = false := by
  refine ⟨rfl, by decide, rfl⟩

theorem map_congr_mem {α β : Type} (f g : α → β) :
    ∀ l : List α, (∀ a ∈ l, f a = g a) → l.map f = l.map g := by
  intro l
  induction l with
  | nil => intro _; rfl
  | cons a t ih =>
    intro h
    simp only [List.map_cons]
    rw [h a (List.mem_cons_self a t), ih (fun b hb => h b (List.mem_cons_of_mem a hb))]

/-- C6: confirmed. `get_pending_events(limit)` returns only events whose status is
    PENDING, sorted by creation time ascending, at most `limit` of them; an
    event whose status is FAILED never appears in the result. -/
theorem get_pending_events_fifo_pending_only (db : DB) (limit : Nat) :
    (∀ e ∈ OutboxEventRepository.get_pending_events db limit, e.status = "PENDING") ∧
    List.Sorted createdLe (OutboxEventRepository.get_pending_events db limit) ∧
    (OutboxEventRepository.get_pending_events db limit).length ≤ limit ∧
    (∀ e ∈ OutboxEventRepository.get_pending_events db limit, e.status ≠ "FAILED") := by
  have hmem : ∀ e ∈ OutboxEventRepository.get_pending_events db limit,
      e.status = "PENDING" := by
    intro e he
    unfold OutboxEventRepository.get_pending_events at he
    have h1 := List.mem_of_mem_take he
    have h2 := (List.perm_insertionSort createdLe
      (db.outbox_events.filter (fun e => e.status == "PENDING"))).mem_iff.mp h1
    have h3 := List.of_mem_filter h2
    exact eq_of_beq h3
  refine ⟨hmem, ?_, ?_, ?_⟩
  · unfold OutboxEventRepository.get_pending_events
    exact List.Pairwise.sublist (List.take_sublist limit _)
      (List.sorted_insertionSort createdLe _)
  · unfold OutboxEventRepository.get_pending_events
    exact List.length_take_le limit _
  · intro e he hfail
    have hp := hmem e he
    rw [hp] at hfail
    exact absurd hfail (by decide)

/-- An outbox with one PENDING event (created later) and one FAILED event
    (created earlier). -/
def pendingPollDB : DB :=
  { orders := [], products := [],
    outbox_events :=
      [{ id := 8, aggregate_id := 1, aggregate_type := "Order",
         event_type := "order.created", event_data := "", created_at := 9,
         processed_at := none, status := "PENDING", retry_count := 0, max_retries := 3 },
       { id := 9, aggregate_id := 2, aggregate_type := "Order",
         event_type := "order.created", event_data := "", created_at := 2,
         processed_at := none, status := "FAILED", retry_count := 4, max_retries := 3 }] }

/-- Witness for C6 at a concrete outbox holding one PENDING and one FAILED
    event. -/
theorem get_pending_events_fifo_pending_only_witness :
    (∀ e ∈ OutboxEventRepository.get_pending_events pendingPollDB 5, e.status = "PENDING") ∧
    List.Sorted createdLe (OutboxEventRepository.get_pending_events pendingPollDB 5) ∧
    (OutboxEventRepository.get_pending_events pendingPollDB 5).length ≤ 5 ∧
    (∀ e ∈ OutboxEventRepository.get_pending_events pendingPollDB 5, e.status ≠ "FAILED") :=
  get_pending_events_fifo_pending_only pendingPollDB 5

/-- C9: confirmed. `update_status` is idempotent on the observable order statuses:
    applying the same `(order_id, new_status)` update twice (at any two times)
    leaves every order with the same id/status as applying it once. -/
theorem update_status_idempotent (db : DB) (oid : UUID) (st : OrderStatus)
    (now1 now2 : Nat) :
    ((OrderRepository.update_status
        (OrderRepository.update_status db oid st now1).1 oid st now2).1.orders.map
      (fun o => (o.id, o.status)))
    = ((OrderRepository.update_status db oid st now1).1.orders.map
      (fun o => (o.id, o.status))) := by
  rw [update_status_orders, update_status_orders, List.map_map, List.map_map,
    List.map_map]
  apply map_congr_mem
  intro a _
  by_cases h : (a.id == oid) = true
  · simp [Function.comp, statusRewrite, h]
  · simp [Function.comp, statusRewrite, h]

/-- When both inserted ids are fresh, the insert phase of the transaction
    appends the order row and the outbox row and commits. -/
theorem insertOrderAndOutbox_fresh (db0 db1 : DB) (order : OrderRow)
    (event : OutboxRow) (tr : List Step)
    (hO : ∀ o ∈ db1.orders, (o.id == order.id) = false)
    (hE : ∀ e ∈ db1.outbox_events, (e.id == event.id) = false) :
    OrderRepository.insertOrderAndOutbox db0 db1 order event tr
      = ({ db1 with orders := db1.orders ++ [order],
                    outbox_events := db1.outbox_events ++ [event] },
         Except.ok order, tr ++ [Step.insertOrderStep, Step.insertOutboxStep]) := by
  have h1 : db1.orders.any (fun o => o.id == order.id) = false :=
    List.any_eq_false.mpr (fun o ho => by simp [hO o ho])
  have h2 : db1.outbox_events.any (fun e => e.id == event.id) = false :=
    List.any_eq_false.mpr (fun e he => by simp [hE e he])
  unfold OrderRepository.insertOrderAndOutbox
  simp only [h1, h2, Bool.false_eq_true, if_false]

/-- C10: confirmed. When `product_id` is `None` (falsy) or `quantity` is `None`,
    `create_with_outbox_event` skips the stock-reservation step entirely: the
    order row and the outbox event row are inserted and committed, the
    products table is untouched, and the reservation statement never runs
    (the executed-statement trace contains no reserve step). -/
theorem create_with_outbox_event_skips_reserve (db : DB) (order : OrderRow)
    (event : OutboxRow) (pid? : Option UUID) (q? : Option Int) (now : Nat)
    (h : pid? = none ∨ q? = none)
    (hO : ∀ o ∈ db.orders, (o.id == order.id) = false)
    (hE : ∀ e ∈ db.outbox_events, (e.id == event.id) = false) :
    OrderRepository.create_with_outbox_event db order event pid? q? now
      = ({ db with orders := db.orders ++ [order],
                   outbox_events := db.outbox_events ++ [event] },
         Except.ok order, [Step.insertOrderStep, Step.insertOutboxStep]) := by
  have hbase := insertOrderAndOutbox_fresh db db order event [] hO hE
  cases pid? with
  | none =>
    unfold OrderRepository.create_with_outbox_event
    cases q? with
    | none => rw [hbase]; rfl
    | some q => rw [hbase]; rfl
  | some pid =>
    cases q? with
    | some q =>
      rcases h with h | h <;> exact absurd h (by simp)
    | none =>
      unfold OrderRepository.create_with_outbox_event
      rw [hbase]
      rfl

/-- Witness for C10: committing an order without a product id touches neither
    the stock nor runs the reservation statement. -/
theorem create_with_outbox_event_skips_reserve_witness :
    OrderRepository.create_with_outbox_event smallStockDB
      (Order.create_new 2 1 1 10 21 0)
      (OutboxEvent.create_order_created_event (Order.create_new 2 1 1 10 21 0) 22 none none 0)
      none (some 1) 0
      = ({ smallStockDB with
            orders := smallStockDB.orders ++ [Order.create_new 2 1 1 10 21 0],
            outbox_events := smallStockDB.outbox_events ++
              [OutboxEvent.create_order_created_event (Order.create_new 2 1 1 10 21 0) 22 none none 0] },
         Except.ok (Order.create_new 2 1 1 10 21 0),
         [Step.insertOrderStep, Step.insertOutboxStep]) :=
  create_with_outbox_event_skips_reserve smallStockDB
    (Order.create_new 2 1 1 10 21 0)
    (OutboxEvent.create_order_created_event (Order.create_new 2 1 1 10 21 0) 22 none none 0)
    none (some 1) 0 (Or.inl rfl)
    (by intro o ho; simp [smallStockDB] at ho)
    (by intro e he; simp [smallStockDB] at he)

theorem stockOf_congr (db1 db2 : DB) (pid : UUID)
    (h : db1.products = db2.products) : stockOf db1 pid = stockOf db2 pid := by
  unfold stockOf
  rw [h]

/-- Execution cases of the commit transaction when both `product_id` and
    `quantity` are given: insufficient stock aborts after the reservation
    statement with nothing changed; a duplicate id aborts with nothing
    changed; otherwise all three changes commit, in order. -/
theorem create_some_some_spec (db : DB) (order : OrderRow) (event : OutboxRow)
    (pid : UUID) (q : Int) (now : Nat) :
    (db.products.any (matchesReserve pid q) = false ∧
      OrderRepository.create_with_outbox_event db order event (some pid) (some q) now
        = (db, Except.error CreateError.insufficientStock, [Step.reserveStockStep])) ∨
    (db.products.any (matchesReserve pid q) = true ∧
      ∃ tr : List Step,
        OrderRepository.create_with_outbox_event db order event (some pid) (some q) now
          = (db, Except.error CreateError.integrityViolation, tr)) ∨
    (db.products.any (matchesReserve pid q) = true ∧
      OrderRepository.create_with_outbox_event db order event (some pid) (some q) now
        = ({ orders := db.orders ++ [order],
             outbox_events := db.outbox_events ++ [event],
             products := db.products.map (reserveRewrite pid q now) },
           Except.ok order,
           [Step.reserveStockStep, Step.insertOrderStep, Step.insertOutboxStep])) := by
  cases hb1 : db.products.any (matchesReserve pid q) with
  | false =>
    refine Or.inl ⟨rfl, ?_⟩
    simp only [OrderRepository.create_with_outbox_event, reserve_stock_ret, hb1,
      Bool.false_eq_true, if_false]
  | true =>
    cases hb2 : db.orders.any (fun o => o.id == order.id) with
    | true =>
      refine Or.inr (Or.inl ⟨rfl, [Step.reserveStockStep, Step.insertOrderStep], ?_⟩)
      simp only [OrderRepository.create_with_outbox_event, reserve_stock_ret, hb1,
        if_true, OrderRepository.insertOrderAndOutbox, reserve_stock_orders, hb2]
      rfl
    | false =>
      cases hb3 : db.outbox_events.any (fun e => e.id == event.id) with
      | true =>
        refine Or.inr (Or.inl ⟨rfl,
          [Step.reserveStockStep, Step.insertOrderStep, Step.insertOutboxStep], ?_⟩)
        simp only [OrderRepository.create_with_outbox_event, reserve_stock_ret, hb1,
          if_true, OrderRepository.insertOrderAndOutbox, reserve_stock_orders, hb2,
          reserve_stock_outbox, hb3]
        rfl
      | false =>
        refine Or.inr (Or.inr ⟨rfl, ?_⟩)
        simp only [OrderRepository.create_with_outbox_event, reserve_stock_ret, hb1,
          if_true, OrderRepository.insertOrderAndOutbox, reserve_stock_orders, hb2,
          reserve_stock_outbox, hb3]
        rfl

/-- C1: confirmed. Order-commit atomicity.  For an order-commit attempt (the
    use case always passes both `product_id` and `quantity`): on success,
    exactly one Order row (status PENDING) and exactly one OutboxEvent row
    referencing that order are appended and the product's stock is decremented
    by the requested quantity, with the transaction's statements executed in
    the order reserve-stock, insert-order, insert-outbox; on any error nothing
    changes; and when available stock < requested quantity (on an otherwise
    valid request) the transaction aborts with the insufficient-stock error
    right after the reservation statement, before any insert. -/
theorem order_commit_atomicity (db : DB) (req : OrderCreateRequest) (oid eid : UUID)
    (tid sid : Option String) (now : Nat) (s : Int)
    (hN : (db.products.map ProductRow.id).Nodup)
    (hs : stockOf db req.product_id = some s) :
    (∀ o, (CreateOrderUseCase.execute db req oid eid tid sid now).2.1 = Except.ok o →
      (CreateOrderUseCase.execute db req oid eid tid sid now).1.orders
        = db.orders ++ [Order.create_new req.customer_id req.product_id
            req.quantity req.total_amount oid now] ∧
      (CreateOrderUseCase.execute db req oid eid tid sid now).1.outbox_events
        = db.outbox_events ++ [OutboxEvent.create_order_created_event
            (Order.create_new req.customer_id req.product_id req.quantity
              req.total_amount oid now) eid tid sid now] ∧
      (Order.create_new req.customer_id req.product_id req.quantity
        req.total_amount oid now).status = OrderStatus.PENDING ∧
      (OutboxEvent.create_order_created_event (Order.create_new req.customer_id
        req.product_id req.quantity req.total_amount oid now) eid tid sid
        now).aggregate_id = oid ∧
      req.quantity ≤ s ∧
      stockOf (CreateOrderUseCase.execute db req oid eid tid sid now).1 req.product_id
        = some (s - req.quantity) ∧
      (CreateOrderUseCase.execute db req oid eid tid sid now).2.2
        = [Step.reserveStockStep, Step.insertOrderStep, Step.insertOutboxStep]) ∧
    (∀ e, (CreateOrderUseCase.execute db req oid eid tid sid now).2.1 = Except.error e →
      (CreateOrderUseCase.execute db req oid eid tid sid now).1 = db) ∧
    (s < req.quantity → 0 < req.quantity → req.quantity ≤ 1000 →
      0 < req.total_amount → req.total_amount ≤ 100000 →
      (CreateOrderUseCase.execute db req oid eid tid sid now).2.1
        = Except.error (UseCaseError.createFailed CreateError.insufficientStock) ∧
      (CreateOrderUseCase.execute db req oid eid tid sid now).1 = db ∧
      (CreateOrderUseCase.execute db req oid eid tid sid now).2.2
        = [Step.reserveStockStep]) := by
  obtain ⟨p0, hp0, hps⟩ := Option.map_eq_some'.mp hs
  have hany : db.products.any (matchesReserve req.product_id req.quantity)
      = decide (req.quantity ≤ s) := by
    rw [any_matchesReserve_of_nodup db.products req.product_id req.quantity p0 hN hp0,
      hps]
  cases hval : (decide (req.quantity ≤ 0) || decide (1000 < req.quantity) ||
      decide (req.total_amount ≤ 0) || decide (100000 < req.total_amount)) with
  | true =>
    have hex : CreateOrderUseCase.execute db req oid eid tid sid now
        = (db, Except.error UseCaseError.invalidOrderData, []) := by
      simp only [CreateOrderUseCase.execute, hval, if_true]
    refine ⟨?_, ?_, ?_⟩
    · intro o hok
      rw [hex] at hok
      exact absurd hok (by simp)
    · intro e _
      rw [hex]
    · intro _ h1 h2 h3 h4
      exfalso
      simp only [Bool.or_eq_true, decide_eq_true_eq] at hval
      omega
  | false =>
    rcases create_some_some_spec db
        (Order.create_new req.customer_id req.product_id req.quantity
          req.total_amount oid now)
        (OutboxEvent.create_order_created_event
          (Order.create_new req.customer_id req.product_id req.quantity
            req.total_amount oid now) eid tid sid now)
        req.product_id req.quantity now with
      ⟨ha, heq⟩ | ⟨ha, tr, heq⟩ | ⟨ha, heq⟩
    · -- insufficient stock: abort after the reservation statement
      have hex : CreateOrderUseCase.execute db req oid eid tid sid now
          = (db, Except.error (UseCaseError.createFailed CreateError.insufficientStock),
             [Step.reserveStockStep]) := by
        simp only [CreateOrderUseCase.execute, hval, Bool.false_eq_true, if_false,
          hp0, heq]
      refine ⟨?_, ?_, ?_⟩
      · intro o hok
        rw [hex] at hok
        exact absurd hok (by simp)
      · intro e _
        rw [hex]
      · intro _ _ _ _ _
        rw [hex]
        exact ⟨rfl, rfl, rfl⟩
    · -- integrity violation: full rollback
      have hex : CreateOrderUseCase.execute db req oid eid tid sid now
          = (db, Except.error (UseCaseError.createFailed CreateError.integrityViolation),
             tr) := by
        simp only [CreateOrderUseCase.execute, hval, Bool.false_eq_true, if_false,
          hp0, heq]
      refine ⟨?_, ?_, ?_⟩
      · intro o hok
        rw [hex] at hok
        exact absurd hok (by simp)
      · intro e _
        rw [hex]
      · intro hlt _ _ _ _
        exfalso
        rw [hany] at ha
        have := of_decide_eq_true ha
        omega
    · -- success: all three changes, in order
      have hq : req.quantity ≤ s := by
        rw [hany] at ha
        exact of_decide_eq_true ha
      have hex : CreateOrderUseCase.execute db req oid eid tid sid now
          = ({ orders := db.orders ++ [Order.create_new req.customer_id
                 req.product_id req.quantity req.total_amount oid now],
               outbox_events := db.outbox_events ++
                 [OutboxEvent.create_order_created_event
                   (Order.create_new req.customer_id req.product_id req.quantity
                     req.total_amount oid now) eid tid sid now],
               products := db.products.map
                 (reserveRewrite req.product_id req.quantity now) },
             Except.ok (Order.create_new req.customer_id req.product_id
               req.quantity req.total_amount oid now),
             [Step.reserveStockStep, Step.insertOrderStep, Step.insertOutboxStep]) := by
        simp only [CreateOrderUseCase.execute, hval, Bool.false_eq_true, if_false,
          hp0, heq]
      refine ⟨?_, ?_, ?_⟩
      · intro o _
        have hstock : stockOf (CreateOrderUseCase.execute db req oid eid tid sid now).1
            req.product_id = some (s - req.quantity) := by
          rw [hex]
          have hc : stockOf
              ({ orders := db.orders ++ [Order.create_new req.customer_id
                   req.product_id req.quantity req.total_amount oid now],
                 outbox_events := db.outbox_events ++
                   [OutboxEvent.create_order_created_event
                     (Order.create_new req.customer_id req.product_id req.quantity
                       req.total_amount oid now) eid tid sid now],
                 products := db.products.map
                   (reserveRewrite req.product_id req.quantity now) } : DB)
              req.product_id
              = stockOf (ProductRepository.reserve_stock db req.product_id
                  req.quantity now).1 req.product_id :=
            stockOf_congr _ _ _ rfl
          rw [hc, stockOf_reserve_stock db req.product_id req.quantity now s hs,
            if_pos hq]
        rw [hex]
        exact ⟨rfl, rfl, rfl, rfl, hq, by rw [← hex]; exact hstock, rfl⟩
      · intro e he
        rw [hex] at he
        exact absurd he (by simp)
      · intro hlt _ _ _ _
        exfalso
        omega

/-- Witness for C1: a valid commit against a product with stock 3, requesting
    quantity 2, succeeds with all three changes. -/
theorem order_commit_atomicity_witness :
    ((smallStockDB.products.map ProductRow.id).Nodup ∧
     stockOf smallStockDB 1 = some 3) ∧
    ((∀ o, (CreateOrderUseCase.execute smallStockDB
        { customer_id := 2, product_id := 1, quantity := 2, total_amount := 10 }
        21 22 none none 4).2.1 = Except.ok o →
      (CreateOrderUseCase.execute smallStockDB
        { customer_id := 2, product_id := 1, quantity := 2, total_amount := 10 }
        21 22 none none 4).1.orders
        = smallStockDB.orders ++ [Order.create_new 2 1 2 10 21 4] ∧
      (CreateOrderUseCase.execute smallStockDB
        { customer_id := 2, product_id := 1, quantity := 2, total_amount := 10 }
        21 22 none none 4).1.outbox_events
        = smallStockDB.outbox_events ++
          [OutboxEvent.create_order_created_event (Order.create_new 2 1 2 10 21 4)
            22 none none 4] ∧
      (Order.create_new 2 1 2 10 21 4).status = OrderStatus.PENDING ∧
      (OutboxEvent.create_order_created_event (Order.create_new 2 1 2 10 21 4)
        22 none none 4).aggregate_id = 21 ∧
      (2 : Int) ≤ 3 ∧
      stockOf (CreateOrderUseCase.execute smallStockDB
        { customer_id := 2, product_id := 1, quantity := 2, total_amount := 10 }
        21 22 none none 4).1 1 = some (3 - 2) ∧
      (CreateOrderUseCase.execute smallStockDB
        { customer_id := 2, product_id := 1, quantity := 2, total_amount := 10 }
        21 22 none none 4).2.2
        = [Step.reserveStockStep, Step.insertOrderStep, Step.insertOutboxStep]) ∧
    (∀ e, (CreateOrderUseCase.execute smallStockDB
        { customer_id := 2, product_id := 1, quantity := 2, total_amount := 10 }
        21 22 none none 4).2.1 = Except.error e →
      (CreateOrderUseCase.execute smallStockDB
        { customer_id := 2, product_id := 1, quantity := 2, total_amount := 10 }
        21 22 none none 4).1 = smallStockDB) ∧
    ((3 : Int) < 2 → (0 : Int) < 2 → (2 : Int) ≤ 1000 →
      (0 : Int) < 10 → (10 : Int) ≤ 100000 →
      (CreateOrderUseCase.execute smallStockDB
        { customer_id := 2, product_id := 1, quantity := 2, total_amount := 10 }
        21 22 none none 4).2.1
        = Except.error (UseCaseError.createFailed CreateError.insufficientStock) ∧
      (CreateOrderUseCase.execute smallStockDB
        { customer_id := 2, product_id := 1, quantity := 2, total_amount := 10 }
        21 22 none none 4).1 = smallStockDB ∧
      (CreateOrderUseCase.execute smallStockDB
        { customer_id := 2, product_id := 1, quantity := 2, total_amount := 10 }
        21 22 none none 4).2.2 = [Step.reserveStockStep])) :=
  ⟨⟨by decide, by decide⟩,
   order_commit_atomicity smallStockDB
     { customer_id := 2, product_id := 1, quantity := 2, total_amount := 10 }
     21 22 none none 4 3 (by decide) (by decide)⟩

/-- C7 counterexample, refuting the claim at two concrete inputs.
    First, the claim says a message carrying an invalid UUID is acknowledged
    (dropped): a payload whose order id is present and truthy but not a
    string — here the number `123` — carries no valid UUID, yet `UUID(123)`
    raises `AttributeError`, which `except ValueError` does not catch; the
    exception escapes, and the message is rejected, not acknowledged.
    Second, the claim says that when `update_status` raises for an
    infrastructure reason the message is not acknowledged "so the broker
    redelivers it": on a well-formed message whose update call raises, the
    escaping exception makes `message.process()` reject with its default
    `requeue=False`, so the message is permanently discarded and the broker
    does NOT redeliver it — the claimed retry mechanism does not exist. -/
theorem process_reserved_rejects_instead_of_ack_or_redeliver :
    (InventoryEventConsumer.process_reserved_message
      (Except.ok (JValue.obj
        [("orderId", JValue.num 123), ("status", JValue.str "reserved")]))
      (fun _ => UpdateBehavior.returns true)
      = (ConsumerOutcome.rejectedNoRequeue, []) ∧
     ConsumerOutcome.rejectedNoRequeue ≠ ConsumerOutcome.acked) ∧
    (InventoryEventConsumer.process_reserved_message
      (Except.ok (JValue.obj
        [("orderId", JValue.str "550e8400-e29b-41d4-a716-446655440000"),
         ("status", JValue.str "reserved")]))
      (fun _ => UpdateBehavior.raisesInfra)
      = (ConsumerOutcome.rejectedNoRequeue,
         [("550e8400e29b41d4a716446655440000", OrderStatus.COMPLETED)]) ∧
     ConsumerOutcome.redelivered ConsumerOutcome.rejectedNoRequeue = false) :=
  ⟨⟨rfl, by decide⟩, ⟨rfl, rfl⟩⟩

/-- C7, amended. Drop discipline of the reserved-feed handler:
    unparseable JSON, a missing/falsy order id (under either key), a status
    field other than the string "reserved", and an order-id *string* that is
    not a valid UUID are acknowledged (dropped) with no state mutation; an
    order id that is truthy but not a string, a non-object JSON payload, and
    an infrastructure error raised by the status update all escape the
    handler, whereupon `message.process()` (default `requeue=False`) rejects
    the message — permanently discarded without acknowledgement; and no
    handler outcome causes the broker to redeliver the message, so there is
    no redelivery-based retry for transient update failures. -/
theorem process_reserved_drop_retry_discipline (upd : String → UpdateBehavior) :
    (InventoryEventConsumer.process_reserved_message (Except.error ()) upd
      = (ConsumerOutcome.acked, [])) ∧
    (∀ kvs, effectiveOrderId kvs = none →
      InventoryEventConsumer.process_reserved_message (Except.ok (JValue.obj kvs)) upd
        = (ConsumerOutcome.acked, [])) ∧
    (∀ kvs v, effectiveOrderId kvs = some v → truthy v = false →
      InventoryEventConsumer.process_reserved_message (Except.ok (JValue.obj kvs)) upd
        = (ConsumerOutcome.acked, [])) ∧
    (∀ kvs v, effectiveOrderId kvs = some v → truthy v = true →
      statusIsReserved (jget kvs "status") = false →
      InventoryEventConsumer.process_reserved_message (Except.ok (JValue.obj kvs)) upd
        = (ConsumerOutcome.acked, [])) ∧
    (∀ kvs t, effectiveOrderId kvs = some (JValue.str t) →
      truthy (JValue.str t) = true →
      statusIsReserved (jget kvs "status") = true → pyUUIDhex t = none →
      InventoryEventConsumer.process_reserved_message (Except.ok (JValue.obj kvs)) upd
        = (ConsumerOutcome.acked, [])) ∧
    (∀ kvs v, effectiveOrderId kvs = some v → truthy v = true →
      statusIsReserved (jget kvs "status") = true → (∀ t, v ≠ JValue.str t) →
      InventoryEventConsumer.process_reserved_message (Except.ok (JValue.obj kvs)) upd
        = (ConsumerOutcome.rejectedNoRequeue, [])) ∧
    (∀ kvs t u b, effectiveOrderId kvs = some (JValue.str t) →
      truthy (JValue.str t) = true →
      statusIsReserved (jget kvs "status") = true → pyUUIDhex t = some u →
      upd u = UpdateBehavior.returns b →
      InventoryEventConsumer.process_reserved_message (Except.ok (JValue.obj kvs)) upd
        = (ConsumerOutcome.acked, [(u, OrderStatus.COMPLETED)])) ∧
    (∀ kvs t u, effectiveOrderId kvs = some (JValue.str t) →
      truthy (JValue.str t) = true →
      statusIsReserved (jget kvs "status") = true → pyUUIDhex t = some u →
      upd u = UpdateBehavior.raisesInfra →
      InventoryEventConsumer.process_reserved_message (Except.ok (JValue.obj kvs)) upd
        = (ConsumerOutcome.rejectedNoRequeue, [(u, OrderStatus.COMPLETED)])) ∧
    (∀ v, (∀ kvs, v ≠ JValue.obj kvs) →
      InventoryEventConsumer.process_reserved_message (Except.ok v) upd
        = (ConsumerOutcome.rejectedNoRequeue, [])) ∧
    (∀ oc : ConsumerOutcome, ConsumerOutcome.redelivered oc = false) := by
  refine ⟨rfl, ?_, ?_, ?_, ?_, ?_, ?_, ?_, ?_, ?_⟩
  · intro kvs h
    simp [InventoryEventConsumer.process_reserved_message, h]
  · intro kvs v h ht
    simp [InventoryEventConsumer.process_reserved_message, h, ht]
  · intro kvs v h ht hst
    simp [InventoryEventConsumer.process_reserved_message, h, ht, hst]
  · intro kvs t h ht hst hhex
    simp [InventoryEventConsumer.process_reserved_message, h, ht, hst, pyUUID, hhex]
  · intro kvs v h ht hst hns
    cases v with
    | str t => exact absurd rfl (hns t)
    | null => exact absurd ht (by decide)
    | bool b =>
      simp [InventoryEventConsumer.process_reserved_message, h, ht, hst, pyUUID]
    | num n =>
      simp [InventoryEventConsumer.process_reserved_message, h, ht, hst, pyUUID]
    | arr xs =>
      simp [InventoryEventConsumer.process_reserved_message, h, ht, hst, pyUUID]
    | obj kvs2 =>
      simp [InventoryEventConsumer.process_reserved_message, h, ht, hst, pyUUID]
  · intro kvs t u b h ht hst hhex hupd
    simp [InventoryEventConsumer.process_reserved_message, h, ht, hst, pyUUID,
      hhex, hupd]
  · intro kvs t u h ht hst hhex hupd
    simp [InventoryEventConsumer.process_reserved_message, h, ht, hst, pyUUID,
      hhex, hupd]
  · intro v h
    cases v with
    | obj kvs => exact absurd rfl (h kvs)
    | null => rfl
    | bool b => rfl
    | num n => rfl
    | str t => rfl
    | arr xs => rfl
  · intro oc
    cases oc <;> rfl

/-- Witness for the amended C7: a well-formed reserved message with a valid
    UUID string is processed, the update call made, and the message acked. -/
theorem process_reserved_drop_retry_discipline_witness :
    InventoryEventConsumer.process_reserved_message
      (Except.ok (JValue.obj
        [("orderId", JValue.str "550e8400-e29b-41d4-a716-446655440000"),
         ("status", JValue.str "reserved")]))
      (fun _ => UpdateBehavior.returns true)
      = (ConsumerOutcome.acked,
         [("550e8400e29b41d4a716446655440000", OrderStatus.COMPLETED)]) :=
  (process_reserved_drop_retry_discipline (fun _ => UpdateBehavior.returns true)).2.2.2.2.2.2.1
    [("orderId", JValue.str "550e8400-e29b-41d4-a716-446655440000"),
     ("status", JValue.str "reserved")]
    "550e8400-e29b-41d4-a716-446655440000"
    "550e8400e29b41d4a716446655440000" true rfl rfl rfl (by decide) rfl

/-- The `order.created` outbox event as handed to the publisher. -/
def sampleOutboxMsg : OutboxEventMsg :=
  { id := 11, aggregate_id := 10, aggregate_type := "Order",
    event_type := "order.created",
    event_data := [("order_id", JValue.str "10")] }

/-- C8, code-bug evidence. `publish_event` builds the message exactly as
    claimed — serialized payload, persistent delivery mode (2), message id =
    event id, the three headers, routing key = event type — and returns false
    on delivery failure, BUT it publishes via `channel.default_exchange` (the
    nameless direct exchange), not the durable topic exchange `amq.topic` that
    `connect()` declares and the inventory consumer's queues are bound to. -/
theorem publish_event_uses_default_exchange :
    RabbitMQEventPublisher.publish_event sampleOutboxMsg true
      = (true, some
          { body := jsonSerialize (JValue.obj sampleOutboxMsg.event_data),
            delivery_mode := 2,
            message_id := "11",
            headers := [("event_type", "order.created"),
                        ("aggregate_id", "10"),
                        ("aggregate_type", "Order")],
            exchange := defaultExchangeName,
            routing_key := "order.created" }) ∧
    defaultExchangeName ≠ declaredTopicExchange ∧
    RabbitMQEventPublisher.publish_event sampleOutboxMsg false = (false, none) :=
  ⟨rfl, by decide, rfl⟩

end EDA
